import Mathlib

/-!
Shallow embedding of `src/ipc/client.py` (class `IPCClient`), the resilient
WebSocket IPC client: connection state machine, message listener, reconnection
coordinator, send path and resource teardown.  Machine state is modelled as an
explicit record; async control flow is modelled by explicit oracles giving the
outcome of each I/O suspension point (handshake result, received frames,
transport outcomes); `time.time()` is an explicit `Nat` parameter.
-/

/-- A transport resource handle (aiohttp websocket / session / connector).
Only its `closed` flag is observable to the client code. -/
structure Handle where
  closed : Bool
deriving DecidableEq, Repr

/-- Outcome of `await asyncio.wait_for(self._task, timeout=5.0)` in
`disconnect()`: the listener task finishes normally (it suppresses
cancellation and returns), the await raises `CancelledError`, the wait
times out, or the task terminated with some other exception which the
await re-raises. -/
inductive TaskAwaitOutcome where
  | finished
  | cancelledError
  | timeoutExpired
  | errored
deriving DecidableEq, Repr

/-- Handle to the listener `asyncio.Task`: whether `task.cancelled()` is
already true, and what awaiting it yields. -/
structure TaskHandle where
  cancelled : Bool
  awaitOutcome : TaskAwaitOutcome
deriving DecidableEq, Repr

/-- Mirror of the `ConnectionMetrics` dataclass. -/
structure ConnectionMetrics where
  connect_attempts : Nat
  last_connect_time : Option Nat
  reconnect_count : Nat
  message_count : Nat
  last_heartbeat : Option Nat
deriving DecidableEq, Repr

/-- The mutable fields of `IPCClient` that the claims are about.  Leading
underscores of the Python attributes are dropped.  `is_connected_flag` is the
raw boolean `self._is_connected`, distinct from the composite property
`IPCClient.is_connected` defined below. -/
structure ClientState where
  is_connected_flag : Bool
  is_connecting : Bool
  websocket : Option Handle
  session : Option Handle
  task : Option TaskHandle
  connector : Option Handle
  metrics : ConnectionMetrics
deriving DecidableEq, Repr

/-- Truthiness of `handle and not handle.closed` for an optional transport
handle: a `None` handle is falsy, otherwise the handle must not be closed. -/
def handleOpen : Option Handle → Bool
  | some h => !h.closed
  | none => false

namespace IPCClient

/-- The `is_connected` property:
`self._is_connected and self._websocket and not self._websocket.closed and
 self._session and not self._session.closed`.
In Python the expression evaluates to a truthy value exactly when every
conjunct holds (a `None` handle is falsy), so the boolean translation below
is faithful for the question of whether the property is true. -/
def is_connected (s : ClientState) : Bool :=
  s.is_connected_flag && handleOpen s.websocket && handleOpen s.session

/-- Embeds `delay = min(self._reconnect_delay * (2 ** (attempt - 1)), 60)` from
`_attempt_reconnection`. -/
def backoffDelay (reconnect_delay : Nat) (attempt : Nat) : Nat :=
  min (reconnect_delay * 2 ^ (attempt - 1)) 60

end IPCClient

/-- One outcome of `await asyncio.wait_for(self._websocket.receive(), ...)`
in the `_listen` loop: a TEXT frame (with the fate of `msg.json()`), an
ERROR frame, a CLOSE/CLOSED frame, any other frame type (which matches no
branch and lets the loop continue), a receive timeout, a cancellation, or
an unexpected exception. -/
inductive InEvent where
  | text (decodeOk : Bool)
  | errorFrame
  | closeFrame
  | otherFrame
  | timeout
  | cancelled
  | unexpectedError
deriving DecidableEq, Repr

namespace IPCClient

/-- Lines 112-113 of `_listen`, executed for every message returned by
`receive()` before the frame-type dispatch:
`self._metrics.message_count += 1` and
`self._metrics.last_heartbeat = time.time()`. -/
def stampFrame (s : ClientState) (t : Nat) : ClientState :=
  { s with metrics :=
      { s.metrics with
          message_count := s.metrics.message_count + 1
          last_heartbeat := some t } }

end IPCClient

/-- Result of running the `while self._is_connected:` loop of `_listen` over
a finite trace of receive outcomes.  `dispatched` counts payloads handed to
`_process_message_safely`; `received` counts iterations that executed the
`message_count += 1` line; `exited` is true when the loop terminated (by
`break` or by the loop condition), false when the trace was exhausted with
the loop still waiting. -/
structure LoopResult where
  state : ClientState
  dispatched : Nat
  received : Nat
  exited : Bool
deriving DecidableEq, Repr

namespace IPCClient

/-- The `while self._is_connected:` loop of `_listen`.  `t` is the current
time, advanced by one unit per iteration. -/
def listenLoop : ClientState → Nat → List InEvent → LoopResult
  | s, _, [] => if s.is_connected_flag then ⟨s, 0, 0, false⟩ else ⟨s, 0, 0, true⟩
  | s, t, ev :: rest =>
    if s.is_connected_flag = false then ⟨s, 0, 0, true⟩
    else
      match ev with
      | InEvent.text ok =>
          let s1 := stampFrame s t
          let r := listenLoop s1 (t + 1) rest
          if ok then ⟨r.state, r.dispatched + 1, r.received + 1, r.exited⟩
          else ⟨r.state, r.dispatched, r.received + 1, r.exited⟩
      | InEvent.errorFrame => ⟨stampFrame s t, 0, 1, true⟩
      | InEvent.closeFrame => ⟨stampFrame s t, 0, 1, true⟩
      | InEvent.otherFrame =>
          let s1 := stampFrame s t
          let r := listenLoop s1 (t + 1) rest
          ⟨r.state, r.dispatched, r.received + 1, r.exited⟩
      | InEvent.timeout =>
          if is_connected s then
            let r := listenLoop s (t + 1) rest
            ⟨r.state, r.dispatched, r.received, r.exited⟩
          else ⟨s, 0, 0, true⟩
      | InEvent.cancelled => ⟨s, 0, 0, true⟩
      | InEvent.unexpectedError => ⟨s, 0, 0, true⟩

end IPCClient

/-- Result of a full `_listen` run: final state, dispatch/receive counts,
and whether the post-loop code scheduled `_attempt_reconnection`. -/
structure ListenResult where
  state : ClientState
  dispatched : Nat
  received : Nat
  reconnectScheduled : Bool
deriving DecidableEq, Repr

namespace IPCClient

/-- Full `_listen` run: run the loop, then the post-loop check
`if self._is_connected: self._is_connected = False;
 asyncio.create_task(self._attempt_reconnection())`, which only runs once
the loop has actually exited. -/
def listen (s : ClientState) (t : Nat) (evs : List InEvent) : ListenResult :=
  let r := listenLoop s t evs
  if r.exited && r.state.is_connected_flag then
    ⟨{ r.state with is_connected_flag := false }, r.dispatched, r.received, true⟩
  else ⟨r.state, r.dispatched, r.received, false⟩

end IPCClient

/-- Number of TEXT frames of a trace whose `msg.json()` decode succeeds
(the `K` of claim C2). -/
def countDecodable : List InEvent → Nat
  | [] => 0
  | ev :: rest => (if ev = InEvent.text true then 1 else 0) + countDecodable rest

/-- Receive outcomes that make the listener loop exit: cancellation,
unexpected exceptions, ERROR frames and CLOSE frames.  TEXT and other
frames, and timeouts while the connectivity predicate holds, let the loop
continue. -/
def isExitEvent : InEvent → Bool
  | InEvent.errorFrame => true
  | InEvent.closeFrame => true
  | InEvent.cancelled => true
  | InEvent.unexpectedError => true
  | _ => false

/-- A client with status flag set, open websocket and session handles, a
live listener task and an open connector, with zeroed metrics.  This is the
state right after a successful `connect()`. -/
def connectedState : ClientState :=
  ⟨true, false, some ⟨false⟩, some ⟨false⟩,
   some ⟨false, TaskAwaitOutcome.finished⟩, some ⟨false⟩,
   ⟨0, none, 0, 0, none⟩⟩

/-- How the awaited `self._session.ws_connect(...)` handshake ends:
success, `aiohttp.ClientConnectorError` (endpoint unreachable),
`aiohttp.WSServerHandshakeError` carrying its HTTP `status`, or some other
exception. -/
inductive HandshakeOutcome where
  | ok
  | connectorRefused
  | handshakeRejected (status : Nat)
  | otherFailure
deriving DecidableEq, Repr

/-- The exception `connect()` lets escape to its caller:
a fresh `ConnectionError` for unreachable endpoints, the re-raised
`WSServerHandshakeError` (which carries `e.status`), or the re-raised
unexpected exception. -/
inductive ConnectError where
  | connectionRefused
  | wsHandshake (status : Nat)
  | unexpected
deriving DecidableEq, Repr

/-- Outcome of one `connect()` call: the state it leaves behind and the
exception it raised, if any. -/
structure ConnectResult where
  state : ClientState
  error : Option ConnectError
deriving DecidableEq, Repr

namespace IPCClient

/-- Embeds `_create_session`: builds the pooled `TCPConnector` only when
`self._connector` is falsy (note: the code does not check `closed` here)
and returns a fresh open session. -/
def create_session (s : ClientState) : ClientState :=
  let s1 := if s.connector = none then { s with connector := some ⟨false⟩ } else s
  { s1 with session := some ⟨false⟩ }

/-- Truthiness of `not self._session or self._session.closed`, the guard
deciding whether `connect()` builds a fresh session. -/
def sessionStale : Option Handle → Bool
  | none => true
  | some se => se.closed

/-- Embeds `connect()`.  `h` is the handshake outcome, `t` the current time.
The `self._is_connecting` branch models
`while self._is_connecting: await asyncio.sleep(0.1)` — the wait loop exits
exactly when the in-flight attempt has executed its `finally` block and
cleared the flag, after which the method returns `self` without raising.
The main body marks the client connecting, counts the attempt, lazily
(re)creates the session, performs the handshake, and on success installs
the websocket, starts the listener task, sets the status flag and stamps
`last_connect_time`.  Each failure arm re-raises (mapped by
`ConnectError`); the `finally` arm clears `_is_connecting` on every path. -/
def connect (s : ClientState) (h : HandshakeOutcome) (t : Nat) : ConnectResult :=
  if s.is_connecting then
    ⟨{ s with is_connecting := false }, none⟩
  else if s.is_connected_flag then
    ⟨s, none⟩
  else
    let s1 := { s with
      is_connecting := true,
      metrics := { s.metrics with
        connect_attempts := s.metrics.connect_attempts + 1 } }
    let s2 := if sessionStale s1.session then create_session s1 else s1
    match h with
    | HandshakeOutcome.ok =>
        ⟨{ s2 with
            websocket := some ⟨false⟩,
            task := some ⟨false, TaskAwaitOutcome.finished⟩,
            is_connected_flag := true,
            metrics := { s2.metrics with last_connect_time := some t },
            is_connecting := false }, none⟩
    | HandshakeOutcome.connectorRefused =>
        ⟨{ s2 with is_connecting := false }, some ConnectError.connectionRefused⟩
    | HandshakeOutcome.handshakeRejected st =>
        ⟨{ s2 with is_connecting := false }, some (ConnectError.wsHandshake st)⟩
    | HandshakeOutcome.otherFailure =>
        ⟨{ s2 with is_connecting := false }, some ConnectError.unexpected⟩

end IPCClient

/-- The four handshake-failure kinds the spec distinguishes. -/
inductive FailureKind where
  | refused
  | authFailed
  | forbidden
  | genericTransport
deriving DecidableEq, Repr

/-- Kind assigned to a handshake status code: 401 is an authentication
failure, 403 is forbidden, anything else is a generic transport error. -/
def statusKind (st : Nat) : FailureKind :=
  if st = 401 then FailureKind.authFailed
  else if st = 403 then FailureKind.forbidden
  else FailureKind.genericTransport

/-- Ground-truth kind of a failing handshake outcome (`none` on success). -/
def failureKind : HandshakeOutcome → Option FailureKind
  | HandshakeOutcome.ok => none
  | HandshakeOutcome.connectorRefused => some FailureKind.refused
  | HandshakeOutcome.handshakeRejected st => some (statusKind st)
  | HandshakeOutcome.otherFailure => some FailureKind.genericTransport

/-- What a caller can conclude from the raised exception alone
(exception class plus, for `WSServerHandshakeError`, its `status`). -/
def classifyError : ConnectError → FailureKind
  | ConnectError.connectionRefused => FailureKind.refused
  | ConnectError.wsHandshake st => statusKind st
  | ConnectError.unexpected => FailureKind.genericTransport

/-- A freshly constructed client: both flags false, no handles, zero
metrics — the state `__init__` leaves behind. -/
def freshState : ClientState :=
  ⟨false, false, none, none, none, none, ⟨0, none, 0, 0, none⟩⟩

namespace IPCClient

/-- The `for attempt in range(1, self._max_reconnect_attempts + 1)` loop of
`_attempt_reconnection`.  `oracle n` is the handshake outcome of the
`connect()` call made on attempt `n` (the backoff sleep before it is a pure
delay).  An exception from `connect()` is caught, logged and the loop moves
on to the next attempt; after the call the loop returns as soon as
`self._is_connected` is true. -/
def reconnectAttempts (oracle : Nat → HandshakeOutcome) (t : Nat) :
    Nat → Nat → ClientState → ClientState
  | _, 0, s => s
  | attempt, fuel + 1, s =>
      let r := connect s (oracle attempt) t
      if r.state.is_connected_flag then r.state
      else reconnectAttempts oracle t (attempt + 1) fuel r.state

/-- One invocation of `_attempt_reconnection` while holding
`self._reconnect_lock`: if the client is already connected or connecting it
returns at once without touching the metrics; otherwise it counts a
reconnect cycle and runs the attempt loop.  `maxAttempts` is
`self._max_reconnect_attempts`. -/
def attemptReconnection (s : ClientState) (oracle : Nat → HandshakeOutcome)
    (maxAttempts t : Nat) : ClientState :=
  if s.is_connected_flag || s.is_connecting then s
  else
    let s1 := { s with metrics :=
      { s.metrics with reconnect_count := s.metrics.reconnect_count + 1 } }
    reconnectAttempts oracle t 1 maxAttempts s1

/-- Runs `N` concurrent invocations of `_attempt_reconnection` serialized in
lock-acquisition order: `self._reconnect_lock` is held for a whole cycle
(including its backoff sleeps), so cycles never interleave and each queued
invocation runs on the state the previous one left behind.  Each invocation
brings its own oracle of `connect()` outcomes. -/
def runReconnectQueue (maxAttempts t : Nat) :
    ClientState → List (Nat → HandshakeOutcome) → ClientState
  | s, [] => s
  | s, o :: rest =>
      runReconnectQueue maxAttempts t (attemptReconnection s o maxAttempts t) rest

end IPCClient

/-- The `isinstance(data, dict)` classification of a `send` payload: a
mapping (contents opaque, tagged by a size) or anything else. -/
inductive PyData where
  | dict (size : Nat)
  | nonDict
deriving DecidableEq, Repr

/-- Outcome of `await self._websocket.send_json(data)` in `send`:
success, `ConnectionResetError`, `aiohttp.ClientError`, or any other
exception. -/
inductive SendJsonOutcome where
  | ok
  | connectionReset
  | clientError
  | otherError
deriving DecidableEq, Repr

/-- Oracle for one iteration of `_handle_reconnect_and_retry`: whether the
client is connected once `self._attempt_reconnection()` returns, and
whether the retransmitting `send_json` then succeeds (when it raises, the
`except` arm of the loop catches and the next retry begins). -/
structure RetryCycle where
  reconnected : Bool
  resend_ok : Bool
deriving DecidableEq, Repr

/-- Result of `_handle_reconnect_and_retry`: the returned boolean, the
number of retransmission attempts (`send_json` calls), and the number of
0.5-unit stabilization sleeps performed. -/
structure RetryResult where
  ok : Bool
  transport_calls : Nat
  delays : Nat
deriving DecidableEq, Repr

/-- Result of `send`: the returned boolean, the total number of
`send_json` transport calls, whether the reconnect-and-retry path was
entered, and the number of stabilization sleeps. -/
structure SendResult where
  ok : Bool
  transport_calls : Nat
  reconnect_invoked : Bool
  delays : Nat
deriving DecidableEq, Repr

namespace IPCClient

/-- Embeds `_handle_reconnect_and_retry(data, max_retries)`: the
`for retry in range(max_retries)` loop.  Each iteration awaits
`_attempt_reconnection`; if `self.is_connected` now holds it sleeps 0.5
for stability and retries `send_json` once — success returns `True`, an
exception is caught and the next iteration begins.  Exhausting the budget
returns `False`.  `retry` is the iteration index, `fuel` the remaining
budget. -/
def handle_reconnect_and_retry (oracle : Nat → RetryCycle) :
    Nat → Nat → RetryResult
  | _, 0 => ⟨false, 0, 0⟩
  | retry, fuel + 1 =>
      let c := oracle retry
      if c.reconnected then
        if c.resend_ok then ⟨true, 1, 1⟩
        else
          let r := handle_reconnect_and_retry oracle (retry + 1) fuel
          ⟨r.ok, r.transport_calls + 1, r.delays + 1⟩
      else
        let r := handle_reconnect_and_retry oracle (retry + 1) fuel
        ⟨r.ok, r.transport_calls, r.delays⟩

/-- Embeds `send(data)`: reject non-mapping payloads, fast-fail when the
connectivity predicate is false, otherwise transmit once; a
`ConnectionResetError` hands over to `_handle_reconnect_and_retry` with its
default budget of 2, `ClientError` and unexpected exceptions report
failure.  Every arm returns a boolean — the only fallible operation on the
two early-return paths is nothing at all, which is how `send` never raises
there. -/
def send (s : ClientState) (data : PyData) (outcome : SendJsonOutcome)
    (oracle : Nat → RetryCycle) : SendResult :=
  match data with
  | PyData.nonDict => ⟨false, 0, false, 0⟩
  | PyData.dict _ =>
      if is_connected s = false then ⟨false, 0, false, 0⟩
      else
        match outcome with
        | SendJsonOutcome.ok => ⟨true, 1, false, 0⟩
        | SendJsonOutcome.connectionReset =>
            let r := handle_reconnect_and_retry oracle 0 2
            ⟨r.ok, r.transport_calls + 1, true, r.delays⟩
        | SendJsonOutcome.clientError => ⟨false, 1, false, 0⟩
        | SendJsonOutcome.otherError => ⟨false, 1, false, 0⟩

end IPCClient

/-- Models `await <resource>.close()` with an injected fault: raises exactly when
`fault` is true. -/
def closeResource (fault : Bool) : Except Unit Unit :=
  if fault then Except.error () else Except.ok ()

/-- One guarded close block of `disconnect()`:
`try: await <resource>.close() except Exception as e: log`.  Reports
whether the close succeeded; the caller only logs the failure. -/
def guardedClose (fault : Bool) : Bool :=
  match closeResource fault with
  | Except.ok _ => true
  | Except.error _ => false

/-- Result of a `disconnect()` call: the state left behind, which of the
four teardown blocks actually acted, and whether `disconnect` itself let an
exception escape. -/
structure DisconnectResult where
  state : ClientState
  task_cancel_attempted : Bool
  ws_close_attempted : Bool
  session_close_attempted : Bool
  connector_close_attempted : Bool
  raised : Bool
deriving DecidableEq, Repr

namespace IPCClient

/-- The websocket/session/connector teardown blocks of `disconnect()`.
Each block runs only when its handle is truthy and not closed
(`handleOpen`); the close itself is guarded by `except Exception`, and the
attribute is set to `None` afterwards inside the same `if` — so a handle
that exists but is already closed is left in place. -/
def disconnectCloses (s : ClientState) (taskAtt : Bool)
    (wsFault sessionFault connectorFault : Bool) : DisconnectResult :=
  let wsAtt := handleOpen s.websocket
  let s1 := if wsAtt then
      let _r := guardedClose wsFault
      { s with websocket := none }
    else s
  let sessAtt := handleOpen s1.session
  let s2 := if sessAtt then
      let _r := guardedClose sessionFault
      { s1 with session := none }
    else s1
  let connAtt := handleOpen s2.connector
  let s3 := if connAtt then
      let _r := guardedClose connectorFault
      { s2 with connector := none }
    else s2
  ⟨s3, taskAtt, wsAtt, sessAtt, connAtt, false⟩

/-- Embeds `disconnect()`: clear the status flag first, then cancel the listener
task — `await asyncio.wait_for(self._task, 5.0)` catches only
`CancelledError` and `TimeoutError`, so a task that terminated with any
other exception re-raises it here, aborting the method before any close
block runs — then run the three guarded close blocks. -/
def disconnect (s : ClientState) (wsFault sessionFault connectorFault : Bool) :
    DisconnectResult :=
  let s0 := { s with is_connected_flag := false }
  match s0.task with
  | none => disconnectCloses s0 false wsFault sessionFault connectorFault
  | some tk =>
      if tk.cancelled then
        disconnectCloses s0 false wsFault sessionFault connectorFault
      else
        match tk.awaitOutcome with
        | TaskAwaitOutcome.errored =>
            ⟨s0, true, false, false, false, true⟩
        | _ =>
            disconnectCloses { s0 with task := none } true
              wsFault sessionFault connectorFault

end IPCClient

/-- A listener task handle is inactive when it is gone or already
cancelled. -/
def taskInactive : Option TaskHandle → Bool
  | some tk => tk.cancelled
  | none => true

/-- Awaiting the task in `disconnect()` stays within the caught exception
kinds: there is no live uncancelled task whose await re-raises a
non-cancellation, non-timeout exception. -/
def taskAwaitSafe : Option TaskHandle → Bool
  | some tk => tk.cancelled || !(tk.awaitOutcome == TaskAwaitOutcome.errored)
  | none => true

/-- A connected client whose listener task already terminated with an
uncaught exception kind. -/
def erroredTaskState : ClientState :=
  ⟨true, false, some ⟨false⟩, some ⟨false⟩,
   some ⟨false, TaskAwaitOutcome.errored⟩, some ⟨false⟩, ⟨0, none, 0, 0, none⟩⟩

/-- C1: the `is_connected` query is true exactly when the internal status
flag is set, the websocket handle exists and is not closed, and the session
handle exists and is not closed; whenever any of the three conditions fails
the query is not true. -/
theorem is_connected_iff_composite (s : ClientState) :
    IPCClient.is_connected s = true ↔
      (s.is_connected_flag = true ∧
       (∃ w, s.websocket = some w ∧ w.closed = false) ∧
       (∃ se, s.session = some se ∧ se.closed = false)) := by
  rcases s with ⟨f, fc, ws, sess, tk, conn, met⟩
  rcases ws with _ | ⟨wc⟩ <;> rcases sess with _ | ⟨sc⟩ <;>
    simp [IPCClient.is_connected, handleOpen]
  tauto

/-- C3: the reconnection backoff delay before attempt `n ≥ 1` is
`min(base * 2 ^ (n - 1), 60)`; with base 5 the delays for attempts 1..5 are
5, 10, 20, 40, 60, and the 60-unit cap first binds at attempt 5 (attempts
1..4 are below the cap, attempt 5 is truncated from 80). -/
theorem backoffDelay_formula :
    (∀ base n, 1 ≤ n →
      IPCClient.backoffDelay base n = min (base * 2 ^ (n - 1)) 60) ∧
    (IPCClient.backoffDelay 5 1 = 5 ∧ IPCClient.backoffDelay 5 2 = 10 ∧
     IPCClient.backoffDelay 5 3 = 20 ∧ IPCClient.backoffDelay 5 4 = 40 ∧
     IPCClient.backoffDelay 5 5 = 60) ∧
    (∀ n, 1 ≤ n → n ≤ 4 →
      IPCClient.backoffDelay 5 n = 5 * 2 ^ (n - 1) ∧ 5 * 2 ^ (n - 1) < 60) ∧
    60 < 5 * 2 ^ (5 - 1) := by
  refine ⟨fun base n _ => rfl, by decide, fun n h1 h4 => ?_, by decide⟩
  interval_cases n <;> exact ⟨by decide, by decide⟩

/-- Witness for C3: the general formula and the uncapped range evaluated at
concrete attempts. -/
theorem backoffDelay_formula_witness :
    IPCClient.backoffDelay 7 3 = min (7 * 2 ^ (3 - 1)) 60 ∧
    IPCClient.backoffDelay 5 2 = 5 * 2 ^ (2 - 1) ∧ 5 * 2 ^ (2 - 1) < 60 :=
  ⟨backoffDelay_formula.1 7 3 (by decide),
   (backoffDelay_formula.2.2.1 2 (by decide) (by decide)).1,
   (backoffDelay_formula.2.2.1 2 (by decide) (by decide)).2⟩

theorem flag_of_is_connected (s : ClientState) :
    IPCClient.is_connected s = true → s.is_connected_flag = true := by
  unfold IPCClient.is_connected
  intro h
  simp only [Bool.and_eq_true] at h
  exact h.1.1

theorem stampFrame_is_connected (s : ClientState) (t : Nat) :
    IPCClient.is_connected (IPCClient.stampFrame s t) = IPCClient.is_connected s := rfl

/-- Behaviour of the listener loop on a trace consisting purely of TEXT
frames: every frame is counted and stamped, the decodable ones are
dispatched, the loop never exits and the status flag survives. -/
theorem listenLoop_text_trace (evs : List InEvent) :
    ∀ (s : ClientState) (t : Nat), s.is_connected_flag = true →
    (∀ ev ∈ evs, ∃ ok, ev = InEvent.text ok) →
    (IPCClient.listenLoop s t evs).received = evs.length ∧
    (IPCClient.listenLoop s t evs).dispatched = countDecodable evs ∧
    (IPCClient.listenLoop s t evs).exited = false ∧
    (IPCClient.listenLoop s t evs).state.is_connected_flag = true ∧
    (IPCClient.listenLoop s t evs).state.metrics.message_count
        = s.metrics.message_count + evs.length ∧
    (evs = [] → (IPCClient.listenLoop s t evs).state = s) ∧
    (evs ≠ [] → (IPCClient.listenLoop s t evs).state.metrics.last_heartbeat
        = some (t + evs.length - 1)) := by
  induction evs with
  | nil =>
    intro s t hflag _
    simp [IPCClient.listenLoop, hflag, countDecodable]
  | cons ev rest ih =>
    intro s t hflag hall
    obtain ⟨ok, rfl⟩ := hall ev (List.mem_cons_self ev rest)
    have hrest : ∀ e ∈ rest, ∃ k, e = InEvent.text k :=
      fun e he => hall e (List.mem_cons_of_mem _ he)
    have hs1 : (IPCClient.stampFrame s t).is_connected_flag = true := hflag
    obtain ⟨h1, h2, h3, h4, h5, h6, h7⟩ := ih (IPCClient.stampFrame s t) (t + 1) hs1 hrest
    have hcount : (IPCClient.stampFrame s t).metrics.message_count
        = s.metrics.message_count + 1 := rfl
    have hheart : (InEvent.text ok :: rest) ≠ [] →
        (IPCClient.listenLoop (IPCClient.stampFrame s t) (t + 1)
            rest).state.metrics.last_heartbeat
          = some (t + (InEvent.text ok :: rest).length - 1) := by
      intro _
      rcases rest with _ | ⟨e2, rest2⟩
      · rw [h6 rfl]
        simp [IPCClient.stampFrame]
      · rw [h7 (by simp)]
        simp only [Option.some.injEq, List.length_cons]
        omega
    cases ok with
    | false =>
      have hstep : IPCClient.listenLoop s t (InEvent.text false :: rest)
          = ⟨(IPCClient.listenLoop (IPCClient.stampFrame s t) (t + 1) rest).state,
             (IPCClient.listenLoop (IPCClient.stampFrame s t) (t + 1) rest).dispatched,
             (IPCClient.listenLoop (IPCClient.stampFrame s t) (t + 1) rest).received + 1,
             (IPCClient.listenLoop (IPCClient.stampFrame s t) (t + 1) rest).exited⟩ := by
        simp [IPCClient.listenLoop, hflag]
      rw [hstep]
      refine ⟨by simp [h1], by simp [countDecodable, h2], h3, h4, ?_, by simp,
        fun hne => hheart hne⟩
      have hgoal := h5
      rw [hcount] at hgoal
      simp only [List.length_cons]
      rw [hgoal]
      omega
    | true =>
      have hstep : IPCClient.listenLoop s t (InEvent.text true :: rest)
          = ⟨(IPCClient.listenLoop (IPCClient.stampFrame s t) (t + 1) rest).state,
             (IPCClient.listenLoop (IPCClient.stampFrame s t) (t + 1) rest).dispatched + 1,
             (IPCClient.listenLoop (IPCClient.stampFrame s t) (t + 1) rest).received + 1,
             (IPCClient.listenLoop (IPCClient.stampFrame s t) (t + 1) rest).exited⟩ := by
        simp [IPCClient.listenLoop, hflag]
      rw [hstep]
      refine ⟨by simp [h1], by simp [countDecodable, h2, Nat.add_comm], h3, h4, ?_,
        by simp, fun hne => hheart hne⟩
      have hgoal := h5
      rw [hcount] at hgoal
      simp only [List.length_cons]
      rw [hgoal]
      omega

/-- C2 counterexample: the claim that the message counter equals the number
of successfully decoded and dispatched frames fails on the code.  On the
one-frame trace whose TEXT frame fails JSON decoding, `_listen` increments
`message_count` (lines 112-113 run before the decode) although nothing is
dispatched. -/
theorem listen_count_not_dispatched :
    ¬ (∀ (s : ClientState) (t : Nat) (evs : List InEvent),
        s.is_connected_flag = true →
        (IPCClient.listen s t evs).state.metrics.message_count
            = s.metrics.message_count + (IPCClient.listen s t evs).dispatched ∧
        ((IPCClient.listen s t evs).dispatched = 0 →
          (IPCClient.listen s t evs).state.metrics.last_heartbeat
              = s.metrics.last_heartbeat)) := by
  intro h
  have hc := h connectedState 0 [InEvent.text false] rfl
  revert hc
  decide

/-- Behaviour of the listener loop on a trace of TEXT frames terminated by
a single server ERROR or CLOSE frame: the terminating frame is also counted
and heartbeat-stamped (lines 112-113 run before the frame-type dispatch)
and then the loop exits with the status flag still set. -/
theorem listenLoop_text_exit_trace (endEv : InEvent)
    (hend : endEv = InEvent.errorFrame ∨ endEv = InEvent.closeFrame)
    (evs : List InEvent) :
    ∀ (s : ClientState) (t : Nat), s.is_connected_flag = true →
    (∀ ev ∈ evs, ∃ ok, ev = InEvent.text ok) →
    (IPCClient.listenLoop s t (evs ++ [endEv])).received = evs.length + 1 ∧
    (IPCClient.listenLoop s t (evs ++ [endEv])).dispatched = countDecodable evs ∧
    (IPCClient.listenLoop s t (evs ++ [endEv])).exited = true ∧
    (IPCClient.listenLoop s t (evs ++ [endEv])).state.is_connected_flag = true ∧
    (IPCClient.listenLoop s t (evs ++ [endEv])).state.metrics.message_count
        = s.metrics.message_count + evs.length + 1 ∧
    (IPCClient.listenLoop s t (evs ++ [endEv])).state.metrics.last_heartbeat
        = some (t + evs.length) := by
  induction evs with
  | nil =>
    intro s t hflag _
    rcases hend with rfl | rfl <;>
      simp [IPCClient.listenLoop, hflag, IPCClient.stampFrame, countDecodable]
  | cons ev rest ih =>
    intro s t hflag hall
    obtain ⟨ok, rfl⟩ := hall ev (List.mem_cons_self ev rest)
    have hrest : ∀ e ∈ rest, ∃ k, e = InEvent.text k :=
      fun e he => hall e (List.mem_cons_of_mem _ he)
    have hs1 : (IPCClient.stampFrame s t).is_connected_flag = true := hflag
    obtain ⟨g1, g2, g3, g4, g5, g6⟩ := ih (IPCClient.stampFrame s t) (t + 1) hs1 hrest
    have hcount : (IPCClient.stampFrame s t).metrics.message_count
        = s.metrics.message_count + 1 := rfl
    have hheart : (IPCClient.listenLoop (IPCClient.stampFrame s t) (t + 1)
        (rest ++ [endEv])).state.metrics.last_heartbeat
          = some (t + (InEvent.text ok :: rest).length) := by
      rw [g6]
      simp only [Option.some.injEq, List.length_cons]
      omega
    cases ok with
    | false =>
      have hstep : IPCClient.listenLoop s t (InEvent.text false :: (rest ++ [endEv]))
          = ⟨(IPCClient.listenLoop (IPCClient.stampFrame s t) (t + 1) (rest ++ [endEv])).state,
             (IPCClient.listenLoop (IPCClient.stampFrame s t) (t + 1) (rest ++ [endEv])).dispatched,
             (IPCClient.listenLoop (IPCClient.stampFrame s t) (t + 1) (rest ++ [endEv])).received + 1,
             (IPCClient.listenLoop (IPCClient.stampFrame s t) (t + 1) (rest ++ [endEv])).exited⟩ := by
        simp [IPCClient.listenLoop, hflag]
      rw [List.cons_append, hstep]
      refine ⟨by simp [g1], by simp [countDecodable, g2], g3, g4, ?_, hheart⟩
      have hgoal := g5
      rw [hcount] at hgoal
      simp only [List.length_cons]
      rw [hgoal]
      omega
    | true =>
      have hstep : IPCClient.listenLoop s t (InEvent.text true :: (rest ++ [endEv]))
          = ⟨(IPCClient.listenLoop (IPCClient.stampFrame s t) (t + 1) (rest ++ [endEv])).state,
             (IPCClient.listenLoop (IPCClient.stampFrame s t) (t + 1) (rest ++ [endEv])).dispatched + 1,
             (IPCClient.listenLoop (IPCClient.stampFrame s t) (t + 1) (rest ++ [endEv])).received + 1,
             (IPCClient.listenLoop (IPCClient.stampFrame s t) (t + 1) (rest ++ [endEv])).exited⟩ := by
        simp [IPCClient.listenLoop, hflag]
      rw [List.cons_append, hstep]
      refine ⟨by simp [g1], by simp [countDecodable, g2, Nat.add_comm], g3, g4, ?_, hheart⟩
      have hgoal := g5
      rw [hcount] at hgoal
      simp only [List.length_cons]
      rw [hgoal]
      omega

/-- C2 amended: the message counter counts raw received frames, not decoded
ones.  For a listener run over a trace of `M` received TEXT frames of which
`K` decode successfully, `message_count` grows by `M` (every raw frame is
counted, decodable or not) while exactly the `K` decodable payloads are
dispatched, and `last_heartbeat` holds the receive time of the last
received frame; and when such a run is terminated by a server ERROR or
CLOSE frame, that frame too is counted and heartbeat-stamped before the
loop exits. -/
theorem listen_raw_frame_metrics (s : ClientState) (t : Nat) (evs : List InEvent)
    (hflag : s.is_connected_flag = true)
    (htext : ∀ ev ∈ evs, ∃ ok, ev = InEvent.text ok) :
    (IPCClient.listen s t evs).received = evs.length ∧
    (IPCClient.listen s t evs).state.metrics.message_count
        = s.metrics.message_count + evs.length ∧
    (IPCClient.listen s t evs).dispatched = countDecodable evs ∧
    (evs ≠ [] → (IPCClient.listen s t evs).state.metrics.last_heartbeat
        = some (t + evs.length - 1)) ∧
    (∀ endEv, endEv = InEvent.errorFrame ∨ endEv = InEvent.closeFrame →
      (IPCClient.listen s t (evs ++ [endEv])).received = evs.length + 1 ∧
      (IPCClient.listen s t (evs ++ [endEv])).state.metrics.message_count
          = s.metrics.message_count + evs.length + 1 ∧
      (IPCClient.listen s t (evs ++ [endEv])).dispatched = countDecodable evs ∧
      (IPCClient.listen s t (evs ++ [endEv])).state.metrics.last_heartbeat
          = some (t + evs.length)) := by
  obtain ⟨h1, h2, h3, h4, h5, h6, h7⟩ := listenLoop_text_trace evs s t hflag htext
  have hrun : IPCClient.listen s t evs
      = ⟨(IPCClient.listenLoop s t evs).state, (IPCClient.listenLoop s t evs).dispatched,
         (IPCClient.listenLoop s t evs).received, false⟩ := by
    simp [IPCClient.listen, h3]
  refine ⟨by rw [hrun]; exact h1, by rw [hrun]; exact h5, by rw [hrun]; exact h2,
    by rw [hrun]; exact h7, ?_⟩
  intro endEv hend
  obtain ⟨g1, g2, g3, g4, g5, g6⟩ := listenLoop_text_exit_trace endEv hend evs s t hflag htext
  have hrun2 : IPCClient.listen s t (evs ++ [endEv])
      = ⟨{ (IPCClient.listenLoop s t (evs ++ [endEv])).state with is_connected_flag := false },
         (IPCClient.listenLoop s t (evs ++ [endEv])).dispatched,
         (IPCClient.listenLoop s t (evs ++ [endEv])).received, true⟩ := by
    simp [IPCClient.listen, g3, g4]
  rw [hrun2]
  exact ⟨g1, g5, g2, g6⟩

/-- Witness for the amended C2 theorem: a two-frame trace (one decodable
TEXT frame, one undecodable) from a freshly connected client, with and
without a terminating CLOSE frame — the CLOSE frame is counted and stamped
too. -/
theorem listen_raw_frame_metrics_witness :
    (IPCClient.listen connectedState 0 [InEvent.text true, InEvent.text false]).received = 2 ∧
    (IPCClient.listen connectedState 0
        [InEvent.text true, InEvent.text false]).state.metrics.message_count = 0 + 2 ∧
    (IPCClient.listen connectedState 0 [InEvent.text true, InEvent.text false]).dispatched
        = countDecodable [InEvent.text true, InEvent.text false] ∧
    (IPCClient.listen connectedState 0
        ([InEvent.text true, InEvent.text false] ++ [InEvent.closeFrame])).received = 2 + 1 ∧
    (IPCClient.listen connectedState 0
        ([InEvent.text true, InEvent.text false]
          ++ [InEvent.closeFrame])).state.metrics.last_heartbeat = some (0 + 2) := by
  have h := listen_raw_frame_metrics connectedState 0
    [InEvent.text true, InEvent.text false] rfl (by decide)
  have he := h.2.2.2.2 InEvent.closeFrame (Or.inr rfl)
  exact ⟨h.1, h.2.1, h.2.2.1, he.1, he.2.2.2⟩

/-- Exit behaviour of the listener loop from a state satisfying the
connectivity predicate: the loop exits exactly when the trace contains an
exit event (ERROR frame, CLOSE frame, cancellation or unexpected
exception), and neither the loop body nor timeouts ever clear the status
flag or the connectivity predicate. -/
theorem listenLoop_exit_char (evs : List InEvent) :
    ∀ (s : ClientState) (t : Nat), IPCClient.is_connected s = true →
    (IPCClient.listenLoop s t evs).exited = evs.any isExitEvent ∧
    IPCClient.is_connected (IPCClient.listenLoop s t evs).state = true ∧
    (IPCClient.listenLoop s t evs).state.is_connected_flag = true := by
  induction evs with
  | nil =>
    intro s t h
    have hf := flag_of_is_connected s h
    simp [IPCClient.listenLoop, hf, h]
  | cons ev rest ih =>
    intro s t h
    have hf : s.is_connected_flag = true := flag_of_is_connected s h
    have hstamp : IPCClient.is_connected (IPCClient.stampFrame s t) = true :=
      (stampFrame_is_connected s t).symm ▸ h
    have hstampf : (IPCClient.stampFrame s t).is_connected_flag = true := hf
    cases ev with
    | text ok =>
      obtain ⟨h1, h2, h3⟩ := ih (IPCClient.stampFrame s t) (t + 1) hstamp
      cases ok <;> simp [IPCClient.listenLoop, hf, h1, h2, h3, isExitEvent]
    | otherFrame =>
      obtain ⟨h1, h2, h3⟩ := ih (IPCClient.stampFrame s t) (t + 1) hstamp
      simp [IPCClient.listenLoop, hf, h1, h2, h3, isExitEvent]
    | timeout =>
      obtain ⟨h1, h2, h3⟩ := ih s (t + 1) h
      simp [IPCClient.listenLoop, hf, h, h1, h2, h3, isExitEvent]
    | errorFrame => simp [IPCClient.listenLoop, hf, hstamp, hstampf, isExitEvent]
    | closeFrame => simp [IPCClient.listenLoop, hf, hstamp, hstampf, isExitEvent]
    | cancelled => simp [IPCClient.listenLoop, hf, h, isExitEvent]
    | unexpectedError => simp [IPCClient.listenLoop, hf, h, isExitEvent]

/-- C10 counterexample: the claim that an exit caused by an explicit
cancellation request never schedules a reconnection cycle fails on the
code.  The `except asyncio.CancelledError` arm merely `break`s, after which
the post-loop check still sees `self._is_connected` true and schedules
`_attempt_reconnection`: a connected client whose listener receives only a
cancellation schedules a reconnection. -/
theorem listen_cancel_schedules_reconnect :
    ¬ (∀ (s : ClientState) (t : Nat),
        (IPCClient.listen s t [InEvent.cancelled]).reconnectScheduled = false) := by
  intro h
  have hc := h connectedState 0
  revert hc
  decide

/-- C10 amended: from a state satisfying the connectivity predicate, the
listener schedules a reconnection cycle (and flips the status flag to
disconnected) exactly when the loop exits — for any exit reason, explicit
cancellation included — which happens exactly when the trace contains an
ERROR frame, a CLOSE frame, a cancellation or an unexpected exception; a
run whose trace contains no such event schedules nothing. -/
theorem listen_reconnect_trigger (s : ClientState) (t : Nat) (evs : List InEvent)
    (h : IPCClient.is_connected s = true) :
    (IPCClient.listen s t evs).reconnectScheduled = evs.any isExitEvent ∧
    (evs.any isExitEvent = true →
      (IPCClient.listen s t evs).state.is_connected_flag = false) := by
  obtain ⟨h1, h2, h3⟩ := listenLoop_exit_char evs s t h
  rcases hcase : evs.any isExitEvent <;>
    simp [IPCClient.listen, h1, h3, hcase]

/-- Witness for the amended C10 theorem: a connected client whose trace is
one decodable TEXT frame followed by a cancellation schedules a
reconnection and ends with the flag cleared. -/
theorem listen_reconnect_trigger_witness :
    (IPCClient.listen connectedState 0 [InEvent.text true, InEvent.cancelled]).reconnectScheduled
        = [InEvent.text true, InEvent.cancelled].any isExitEvent ∧
    ([InEvent.text true, InEvent.cancelled].any isExitEvent = true →
      (IPCClient.listen connectedState 0
          [InEvent.text true, InEvent.cancelled]).state.is_connected_flag = false) :=
  listen_reconnect_trigger connectedState 0 [InEvent.text true, InEvent.cancelled] (by decide)

/-- C4: on an actual connection attempt, `connect()` raises exactly when
the handshake fails, and the raised exception alone identifies which of the
four failure kinds occurred: unreachable endpoints raise `ConnectionError`,
an unauthorized (401) handshake re-raises `WSServerHandshakeError` with
status 401, a forbidden (403) handshake re-raises it with status 403, and
anything else surfaces as a generic error — `classifyError` recovers the
kind from the exception. -/
theorem connect_error_taxonomy (s : ClientState) (h : HandshakeOutcome) (t : Nat)
    (hc : s.is_connecting = false) (hf : s.is_connected_flag = false) :
    Option.map classifyError (IPCClient.connect s h t).error = failureKind h ∧
    ((IPCClient.connect s h t).error = none ↔ h = HandshakeOutcome.ok) ∧
    (IPCClient.connect s HandshakeOutcome.connectorRefused t).error
        = some ConnectError.connectionRefused ∧
    (IPCClient.connect s (HandshakeOutcome.handshakeRejected 401) t).error
        = some (ConnectError.wsHandshake 401) ∧
    (IPCClient.connect s (HandshakeOutcome.handshakeRejected 403) t).error
        = some (ConnectError.wsHandshake 403) ∧
    (IPCClient.connect s HandshakeOutcome.otherFailure t).error
        = some ConnectError.unexpected := by
  refine ⟨?_, ?_, ?_, ?_, ?_, ?_⟩ <;>
    cases h <;> simp [IPCClient.connect, hc, hf, failureKind, classifyError]

/-- Witness for C4: a fresh client, each failing handshake outcome. -/
theorem connect_error_taxonomy_witness :
    Option.map classifyError
        (IPCClient.connect freshState (HandshakeOutcome.handshakeRejected 401) 0).error
      = failureKind (HandshakeOutcome.handshakeRejected 401) ∧
    (IPCClient.connect freshState HandshakeOutcome.connectorRefused 0).error
      = some ConnectError.connectionRefused := by
  have h := connect_error_taxonomy freshState (HandshakeOutcome.handshakeRejected 401) 0 rfl rfl
  exact ⟨h.1, h.2.2.1⟩

/-- C8: every completed `connect()` call leaves `_is_connecting` false (the
`finally` block, the early-return branches, and the exit condition of the wait loop
condition all guarantee it), and whenever `connect()` raises, the status
flag — and with it the connectivity predicate — is false: the body only
runs when the flag was false at entry and every failure arm leaves it
untouched. -/
theorem connect_clears_connecting (s : ClientState) (h : HandshakeOutcome) (t : Nat) :
    (IPCClient.connect s h t).state.is_connecting = false ∧
    ((IPCClient.connect s h t).error.isSome = true →
      IPCClient.is_connected (IPCClient.connect s h t).state = false) := by
  by_cases hc : s.is_connecting
  · simp [IPCClient.connect, hc]
  · by_cases hf : s.is_connected_flag
    · simp [IPCClient.connect, hc, hf]
    · have hb : s.is_connected_flag = false := by simpa using hf
      cases h <;>
        simp [IPCClient.connect, hc, hf, IPCClient.is_connected,
          IPCClient.create_session, handleOpen, hb] <;>
        split <;>
        simp [hb, apply_ite ClientState.is_connected_flag]

/-- Witness for C8: a fresh client whose handshake is refused ends not
connecting and not connected. -/
theorem connect_clears_connecting_witness :
    (IPCClient.connect freshState HandshakeOutcome.connectorRefused 0).state.is_connecting
        = false ∧
    IPCClient.is_connected
        (IPCClient.connect freshState HandshakeOutcome.connectorRefused 0).state = false :=
  ⟨(connect_clears_connecting freshState HandshakeOutcome.connectorRefused 0).1,
   (connect_clears_connecting freshState HandshakeOutcome.connectorRefused 0).2 (by decide)⟩

theorem connect_reconnect_count (s : ClientState) (h : HandshakeOutcome) (t : Nat) :
    (IPCClient.connect s h t).state.metrics.reconnect_count
      = s.metrics.reconnect_count := by
  by_cases hc : s.is_connecting
  · simp [IPCClient.connect, hc]
  · by_cases hf : s.is_connected_flag
    · simp [IPCClient.connect, hc, hf]
    · cases h <;>
        simp [IPCClient.connect, hc, hf, IPCClient.create_session,
          apply_ite ClientState.metrics, apply_ite ConnectionMetrics.reconnect_count,
          ite_self]

theorem reconnectAttempts_count (oracle : Nat → HandshakeOutcome) (t : Nat) :
    ∀ (fuel attempt : Nat) (s : ClientState),
    (IPCClient.reconnectAttempts oracle t attempt fuel s).metrics.reconnect_count
      = s.metrics.reconnect_count := by
  intro fuel
  induction fuel with
  | zero => intro attempt s; rfl
  | succ n ih =>
    intro attempt s
    simp only [IPCClient.reconnectAttempts]
    split
    · exact connect_reconnect_count s (oracle attempt) t
    · rw [ih (attempt + 1) (IPCClient.connect s (oracle attempt) t).state]
      exact connect_reconnect_count s (oracle attempt) t

theorem attemptReconnection_noop (s : ClientState) (o : Nat → HandshakeOutcome)
    (m t : Nat) (h : s.is_connected_flag = true ∨ s.is_connecting = true) :
    IPCClient.attemptReconnection s o m t = s := by
  unfold IPCClient.attemptReconnection
  rcases h with h | h <;> simp [h]

theorem runReconnectQueue_connected (m t : Nat)
    (oracles : List (Nat → HandshakeOutcome)) :
    ∀ s : ClientState, s.is_connected_flag = true →
    IPCClient.runReconnectQueue m t s oracles = s := by
  induction oracles with
  | nil => intro s _; rfl
  | cons o rest ih =>
    intro s h
    unfold IPCClient.runReconnectQueue
    rw [attemptReconnection_noop s o m t (Or.inl h)]
    exact ih s h

/-- C5 counterexample: the claim that `N` concurrent invocations of the
reconnection coordinator run exactly one cycle fails on the code.  The lock
serializes the invocations but does not deduplicate them: an invocation
that acquires the lock after a cycle that failed every attempt observes a
still-disconnected client and starts a second full cycle.  Two queued
invocations whose `connect()` calls are all refused increment
`reconnect_count` twice. -/
theorem reconnect_queue_two_cycles :
    ¬ (∀ (s : ClientState) (oracles : List (Nat → HandshakeOutcome)) (t : Nat),
        s.is_connected_flag = false → s.is_connecting = false →
        2 ≤ oracles.length →
        (IPCClient.runReconnectQueue 5 t s oracles).metrics.reconnect_count
          = s.metrics.reconnect_count + 1) := by
  intro h
  have hc := h freshState
    [fun _ => HandshakeOutcome.connectorRefused, fun _ => HandshakeOutcome.connectorRefused]
    0 rfl rfl (by decide)
  revert hc
  decide

/-- C5 amended: concurrent invocations of the reconnection coordinator are
serialized by the guard and never interleave; an invocation that acquires
the guard while the client is connected or connecting returns immediately
as a no-op without incrementing the reconnect-cycle counter; and when the
first cycle ends with the client connected, every later queued invocation
is such a no-op, so exactly one cycle runs and the counter grows by exactly
one.  (Only when a cycle ends still disconnected does the next queued
invocation start a fresh cycle.) -/
theorem reconnect_queue_single_cycle_on_success (s : ClientState)
    (o : Nat → HandshakeOutcome) (oracles : List (Nat → HandshakeOutcome))
    (maxA t : Nat)
    (hflag : s.is_connected_flag = false) (hconn : s.is_connecting = false)
    (hsucc : (IPCClient.attemptReconnection s o maxA t).is_connected_flag = true) :
    IPCClient.runReconnectQueue maxA t s (o :: oracles)
      = IPCClient.attemptReconnection s o maxA t ∧
    (IPCClient.runReconnectQueue maxA t s (o :: oracles)).metrics.reconnect_count
      = s.metrics.reconnect_count + 1 ∧
    (∀ (s1 : ClientState) (o1 : Nat → HandshakeOutcome),
      s1.is_connected_flag = true ∨ s1.is_connecting = true →
      IPCClient.attemptReconnection s1 o1 maxA t = s1) := by
  have hqueue : IPCClient.runReconnectQueue maxA t s (o :: oracles)
      = IPCClient.attemptReconnection s o maxA t := by
    unfold IPCClient.runReconnectQueue
    exact runReconnectQueue_connected maxA t oracles _ hsucc
  have hcount : (IPCClient.attemptReconnection s o maxA t).metrics.reconnect_count
      = s.metrics.reconnect_count + 1 := by
    unfold IPCClient.attemptReconnection
    simp only [hflag, hconn, Bool.or_self, Bool.false_eq_true, if_false]
    rw [reconnectAttempts_count]
  exact ⟨hqueue, hqueue ▸ hcount,
    fun s1 o1 h1 => attemptReconnection_noop s1 o1 maxA t h1⟩

/-- Witness for the amended C5 theorem: a fresh disconnected client, a
first invocation whose first `connect()` succeeds, and a second queued
invocation (whose oracle would refuse everything): the counter grows by
exactly one. -/
theorem reconnect_queue_single_cycle_on_success_witness :
    (IPCClient.runReconnectQueue 5 0 freshState
        [fun _ => HandshakeOutcome.ok, fun _ => HandshakeOutcome.connectorRefused]).metrics.reconnect_count
      = freshState.metrics.reconnect_count + 1 :=
  (reconnect_queue_single_cycle_on_success freshState (fun _ => HandshakeOutcome.ok)
    [fun _ => HandshakeOutcome.connectorRefused] 5 0 rfl rfl (by decide)).2.1

/-- C6: `send` returns `False` with no transport call, no reconnection and
no raise when the payload is not a mapping, and likewise — additionally
with no reconnect side effect — when the connectivity predicate is false;
the fast-fail result is identical for every transport oracle, which is the
no-transport, no-reconnect fact. -/
theorem send_fast_fail :
    (∀ (s : ClientState) (o : SendJsonOutcome) (r : Nat → RetryCycle),
      IPCClient.send s PyData.nonDict o r = ⟨false, 0, false, 0⟩) ∧
    (∀ (s : ClientState) (d : PyData) (o : SendJsonOutcome) (r : Nat → RetryCycle),
      IPCClient.is_connected s = false →
      IPCClient.send s d o r = ⟨false, 0, false, 0⟩) := by
  constructor
  · intro s o r
    rfl
  · intro s d o r h
    cases d with
    | nonDict => rfl
    | dict n => simp [IPCClient.send, h]

/-- Witness for C6: a fresh (disconnected) client refuses a mapping payload
without touching the transport. -/
theorem send_fast_fail_witness :
    IPCClient.send freshState (PyData.dict 1) SendJsonOutcome.ok
        (fun _ => ⟨false, false⟩) = ⟨false, 0, false, 0⟩ :=
  send_fast_fail.2 freshState (PyData.dict 1) SendJsonOutcome.ok
    (fun _ => ⟨false, false⟩) rfl

/-- C7: when a connected `send` hits `ConnectionResetError` and the first
reconnect-and-retry cycle reconnects and retransmits successfully, the
payload is retransmitted exactly once (after one stabilization delay) and
`send` returns `True` with two transport calls in total (the reset original
plus the one retransmission); the retry loop never makes more than 2
retransmission attempts, and when neither of its 2 cycles achieves a
successful retransmission it reports `False`. -/
theorem send_reset_retry :
    (∀ oracle : Nat → RetryCycle, oracle 0 = ⟨true, true⟩ →
      IPCClient.handle_reconnect_and_retry oracle 0 2 = ⟨true, 1, 1⟩) ∧
    (∀ oracle : Nat → RetryCycle,
      (IPCClient.handle_reconnect_and_retry oracle 0 2).transport_calls ≤ 2) ∧
    (∀ oracle : Nat → RetryCycle,
      ((oracle 0).reconnected && (oracle 0).resend_ok) = false →
      ((oracle 1).reconnected && (oracle 1).resend_ok) = false →
      (IPCClient.handle_reconnect_and_retry oracle 0 2).ok = false) ∧
    (∀ (s : ClientState) (n : Nat) (oracle : Nat → RetryCycle),
      IPCClient.is_connected s = true → oracle 0 = ⟨true, true⟩ →
      IPCClient.send s (PyData.dict n) SendJsonOutcome.connectionReset oracle
        = ⟨true, 2, true, 1⟩) := by
  have hfirst : ∀ oracle : Nat → RetryCycle, oracle 0 = ⟨true, true⟩ →
      IPCClient.handle_reconnect_and_retry oracle 0 2 = ⟨true, 1, 1⟩ := by
    intro oracle h
    simp [IPCClient.handle_reconnect_and_retry, h]
  refine ⟨hfirst, ?_, ?_, ?_⟩
  · intro oracle
    rcases h0 : oracle 0 with ⟨r0, s0⟩
    rcases h1 : oracle 1 with ⟨r1, s1⟩
    cases r0 <;> cases s0 <;> cases r1 <;> cases s1 <;>
      simp [IPCClient.handle_reconnect_and_retry, h0, h1]
  · intro oracle hc0 hc1
    rcases h0 : oracle 0 with ⟨r0, s0⟩
    rcases h1 : oracle 1 with ⟨r1, s1⟩
    rw [h0] at hc0
    rw [h1] at hc1
    cases r0 <;> cases s0 <;> cases r1 <;> cases s1 <;>
      simp_all [IPCClient.handle_reconnect_and_retry, h0, h1]
  · intro s n oracle hconn h
    simp [IPCClient.send, hconn, hfirst oracle h]

/-- Witness for C7: a freshly connected client, a reset, and a first retry
cycle that reconnects and retransmits: one retransmission, `True`. -/
theorem send_reset_retry_witness :
    IPCClient.send connectedState (PyData.dict 1) SendJsonOutcome.connectionReset
        (fun _ => ⟨true, true⟩) = ⟨true, 2, true, 1⟩ :=
  send_reset_retry.2.2.2 connectedState 1 (fun _ => ⟨true, true⟩) (by decide) rfl

theorem disconnectCloses_spec (s : ClientState) (ta f1 f2 f3 g1 g2 g3 : Bool) :
    (IPCClient.disconnectCloses s ta f1 f2 f3).raised = false ∧
    (IPCClient.disconnectCloses s ta f1 f2 f3).state.is_connected_flag
        = s.is_connected_flag ∧
    (IPCClient.disconnectCloses s ta f1 f2 f3).state.task = s.task ∧
    handleOpen (IPCClient.disconnectCloses s ta f1 f2 f3).state.websocket = false ∧
    handleOpen (IPCClient.disconnectCloses s ta f1 f2 f3).state.session = false ∧
    handleOpen (IPCClient.disconnectCloses s ta f1 f2 f3).state.connector = false ∧
    IPCClient.disconnectCloses s ta g1 g2 g3 = IPCClient.disconnectCloses s ta f1 f2 f3 := by
  rcases s with ⟨f, fc, ws, sess, tk, conn, met⟩
  rcases ws with _ | ⟨_ | _⟩ <;> rcases sess with _ | ⟨_ | _⟩ <;>
    rcases conn with _ | ⟨_ | _⟩ <;>
    simp [IPCClient.disconnectCloses, handleOpen]

theorem disconnectCloses_inactive (s : ClientState) (ta f1 f2 f3 : Bool)
    (hw : handleOpen s.websocket = false) (hs : handleOpen s.session = false)
    (hc : handleOpen s.connector = false) :
    IPCClient.disconnectCloses s ta f1 f2 f3 = ⟨s, ta, false, false, false, false⟩ := by
  unfold IPCClient.disconnectCloses
  simp [hw, hs, hc]

theorem eraseFlag_eq (s : ClientState) (h : s.is_connected_flag = false) :
    ({ s with is_connected_flag := false } : ClientState) = s := by
  rcases s with ⟨f, fc, ws, sess, tk, conn, met⟩
  simp only at h
  subst h
  rfl

theorem disconnect_inactive (s : ClientState) (g1 g2 g3 : Bool)
    (hflag : s.is_connected_flag = false)
    (htask : taskInactive s.task = true)
    (hw : handleOpen s.websocket = false) (hs : handleOpen s.session = false)
    (hc : handleOpen s.connector = false) :
    IPCClient.disconnect s g1 g2 g3 = ⟨s, false, false, false, false, false⟩ := by
  unfold IPCClient.disconnect
  simp only [eraseFlag_eq s hflag]
  rcases htk : s.task with _ | ⟨tc, ao⟩
  · simp only
    exact disconnectCloses_inactive s false g1 g2 g3 hw hs hc
  · rw [htk] at htask
    simp only [taskInactive] at htask
    simp only [htask, if_true]
    exact disconnectCloses_inactive s false g1 g2 g3 hw hs hc

/-- C9 counterexample: the claim that `disconnect()` always closes all four
owned resources even when closing one of them raises fails on the code.
The task-teardown guard catches only `CancelledError` and `TimeoutError`;
injecting any other fault into that resource — a listener task that
terminated with a generic exception, which `await wait_for(...)` re-raises
— makes `disconnect` propagate the exception, and the websocket, session
and connector close blocks never run. -/
theorem disconnect_not_always_closes :
    ¬ (∀ (s : ClientState) (f1 f2 f3 : Bool),
        (IPCClient.disconnect s f1 f2 f3).raised = false ∧
        handleOpen (IPCClient.disconnect s f1 f2 f3).state.websocket = false ∧
        handleOpen (IPCClient.disconnect s f1 f2 f3).state.session = false ∧
        handleOpen (IPCClient.disconnect s f1 f2 f3).state.connector = false) := by
  intro h
  have hc := h erroredTaskState false false false
  revert hc
  decide

/-- C9 amended: whenever awaiting the cancelled listener task stays within
the caught exception kinds (it finishes, raises `CancelledError`, or times
out — every outcome the listener of this repository can produce), then for
any injected close faults `disconnect()` raises nothing, clears the status
flag, leaves the task gone or cancelled and every handle closed or gone;
the result is identical whichever of the three close calls raise — one
failing close never prevents the others — and `disconnect` is idempotent:
run again on the resulting state it performs no teardown action and changes
nothing. -/
theorem disconnect_closes_all_guarded (s : ClientState) (f1 f2 f3 g1 g2 g3 : Bool)
    (htask : taskAwaitSafe s.task = true) :
    (IPCClient.disconnect s f1 f2 f3).raised = false ∧
    (IPCClient.disconnect s f1 f2 f3).state.is_connected_flag = false ∧
    taskInactive (IPCClient.disconnect s f1 f2 f3).state.task = true ∧
    handleOpen (IPCClient.disconnect s f1 f2 f3).state.websocket = false ∧
    handleOpen (IPCClient.disconnect s f1 f2 f3).state.session = false ∧
    handleOpen (IPCClient.disconnect s f1 f2 f3).state.connector = false ∧
    IPCClient.disconnect s g1 g2 g3 = IPCClient.disconnect s f1 f2 f3 ∧
    IPCClient.disconnect (IPCClient.disconnect s f1 f2 f3).state g1 g2 g3
      = ⟨(IPCClient.disconnect s f1 f2 f3).state, false, false, false, false, false⟩ := by
  have hstep : ∃ (s0 : ClientState) (ta : Bool),
      IPCClient.disconnect s f1 f2 f3 = IPCClient.disconnectCloses s0 ta f1 f2 f3 ∧
      IPCClient.disconnect s g1 g2 g3 = IPCClient.disconnectCloses s0 ta g1 g2 g3 ∧
      s0.is_connected_flag = false ∧ taskInactive s0.task = true := by
    rcases s with ⟨f, fc, ws, sess, tk, conn, met⟩
    rcases tk with _ | ⟨tc, ao⟩
    · exact ⟨_, false, rfl, rfl, rfl, rfl⟩
    · cases tc
      · cases ao
        case errored => simp [taskAwaitSafe] at htask
        all_goals exact ⟨_, true, rfl, rfl, rfl, rfl⟩
      · exact ⟨_, false, rfl, rfl, rfl, rfl⟩
  obtain ⟨s0, ta, he, hg, hflag0, htk0⟩ := hstep
  obtain ⟨p1, p2, p3, p4, p5, p6, p7⟩ := disconnectCloses_spec s0 ta f1 f2 f3 g1 g2 g3
  rw [he, hg]
  have hflag : (IPCClient.disconnectCloses s0 ta f1 f2 f3).state.is_connected_flag
      = false := p2.trans hflag0
  have htka : taskInactive (IPCClient.disconnectCloses s0 ta f1 f2 f3).state.task
      = true := by rw [p3]; exact htk0
  exact ⟨p1, hflag, htka, p4, p5, p6, p7,
    disconnect_inactive _ g1 g2 g3 hflag htka p4 p5 p6⟩

/-- Witness for the amended C9 theorem: a fully connected client whose
three close calls all raise still ends fully torn down without an escaping
exception. -/
theorem disconnect_closes_all_guarded_witness :
    (IPCClient.disconnect connectedState true true true).raised = false ∧
    handleOpen (IPCClient.disconnect connectedState true true true).state.websocket
        = false ∧
    handleOpen (IPCClient.disconnect connectedState true true true).state.session
        = false :=
  ⟨(disconnect_closes_all_guarded connectedState true true true false false false
      (by decide)).1,
   (disconnect_closes_all_guarded connectedState true true true false false false
      (by decide)).2.2.2.1,
   (disconnect_closes_all_guarded connectedState true true true false false false
      (by decide)).2.2.2.2.1⟩
